import Mathlib

/-!
Verification of the localrun tunnel-orchestration core against its
natural-language specification.

This file gives a shallow embedding, in Lean 4, of the parts of the
localrun backend that the specification's claims are about:

* the agent control channel (`backend/app/controllers/agent.py`):
  register-message handling and the in-memory `AgentManager` liveness
  registry;
* the Cloudflare tunnel driver
  (`backend/app/integrations/cloudflare/tunnel_driver.py`):
  quick-tunnel creation and `stop_tunnel` container selection;
* the tunnel agent service
  (`backend/app/infrastructure/tunnel_agent_service.py`):
  quick-tunnel creation with rollback, named-route deletion and
  `sync_service_states`;
* the reconcile use case
  (`backend/app/use_cases/services/reconcile_services.py`);
* the service-creation use case
  (`backend/app/use_cases/services/create_service.py`);
* the driver locator (`backend/app/services/tunnel_service.py`).

Conventions of the embedding:

* Python dicts keyed by strings or ints become association lists with
  first-key-wins lookup (`List.lookup`); dict assignment and deletion
  become `alistSet` / `alistErase`.
* The Docker daemon is modelled as a list of container records.  External
  calls whose outcome is not determined by local state (`containers.run`,
  the Cloudflare config push) are modelled by explicit outcome parameters.
* Python truthiness of optional strings (`if s:` is false for `None` and
  for the empty string) is modelled by `truthyStr` / `truthyOpt`.
* String scanning is implemented over `String.data` with structurally
  recursive helpers so that every definition evaluates inside the kernel.
* The regex searches used for tunnel-URL extraction are rendered as
  first-match scans with the same anchoring literals as the Python
  patterns; the bounded polling loops that repeatedly re-read container
  logs (wall-clock timeouts) are collapsed to a single scan of the final
  log contents.
-/

namespace LocalRun

/-! ## String toolkit (kernel-evaluable) -/

/-- Split a character list at newline characters, like `str.split("\n")`. -/
def splitLines : List Char → List (List Char)
  | [] => [[]]
  | c :: rest =>
    if c == '\n' then [] :: splitLines rest
    else
      match splitLines rest with
      | [] => [[c]]
      | l :: ls => (c :: l) :: ls

/-- Whether `pat` occurs as a contiguous subsequence, like Python `pat in s`. -/
def containsSeq (pat : List Char) : List Char → Bool
  | [] => pat.isPrefixOf ([] : List Char)
  | c :: rest => pat.isPrefixOf (c :: rest) || containsSeq pat rest

/-- All suffixes that start right after an occurrence of `pat`, leftmost
occurrence first.  Used to enumerate the candidate match positions of a
regex whose pattern starts with the literal `pat`. -/
def restsAfterSeq (pat : List Char) : List Char → List (List Char)
  | [] => if pat.isPrefixOf ([] : List Char) then [([] : List Char)] else []
  | c :: rest =>
    let tailRests := restsAfterSeq pat rest
    if pat.isPrefixOf (c :: rest) then (c :: rest).drop pat.length :: tailRests
    else tailRests

/-- Text before the first occurrence of `pat`, or `none` when `pat` does not
occur. -/
def beforeFirst (pat : List Char) : List Char → Option (List Char)
  | [] => if pat.isPrefixOf ([] : List Char) then some [] else none
  | c :: rest =>
    if pat.isPrefixOf (c :: rest) then some []
    else (beforeFirst pat rest).map (fun l => c :: l)

/-- Python truthiness of an optional string: `None` and `""` are falsy. -/
def truthyStr : Option String → Bool
  | none => false
  | some s => s ≠ ""

/-- Python `a or b` on optional strings: keep `a` unless it is falsy. -/
def orGet (a b : Option String) : Option String :=
  match a with
  | some s => if s == "" then b else some s
  | none => b

/-- Collapse a falsy optional string to `none`. -/
def truthyOpt (o : Option String) : Option String :=
  match o with
  | some s => if s == "" then none else some s
  | none => none

/-- Python `dict.get(key, default)`: the stored value when the key is
present, else the default. -/
def dictGetD (v : Option String) (d : Option String) : Option String :=
  match v with
  | some x => some x
  | none => d

/-- Lowercase a string (`str.lower()`), implemented structurally. -/
def lowerStr (s : String) : String := String.mk (s.data.map Char.toLower)

/-- First `n` characters of a string (`s[:n]`), implemented structurally. -/
def strTake (s : String) (n : Nat) : String := String.mk (s.data.take n)

/-! ## Association-list dictionaries -/

/-- Python dict assignment `d[k] = v`: replace in place, else append. -/
def alistSet {α β : Type} [BEq α] (l : List (α × β)) (k : α) (v : β) :
    List (α × β) :=
  if (l.lookup k).isSome then l.map (fun p => if p.1 == k then (k, v) else p)
  else l ++ [(k, v)]

/-- Python dict deletion `del d[k]` (a no-op when the key is absent, which is
how every call site guards it). -/
def alistErase {α β : Type} [BEq α] (l : List (α × β)) (k : α) :
    List (α × β) :=
  l.filter (fun p => !(p.1 == k))

/-! ## Tunnel-URL extraction

`get_quick_tunnel_url` (tunnel_driver.py) and `_extract_quick_url`
(tunnel_agent_service.py) both scan container logs line by line: a line
must contain `https://` and `trycloudflare.com`, and then the regex
`https://[a-zA-Z0-9.-]+\.trycloudflare\.com` is searched in it.
`extract_cloudflare_url` (url_extractor.py) searches each line for
`https://[a-zA-Z0-9-]+\.trycloudflare\.com` with no containment pre-check.
-/

/-- Characters admitted by the quick-tunnel regex character class
`[a-zA-Z0-9.-]`. -/
def isQuickUrlChar (c : Char) : Bool := c.isAlphanum || c == '.' || c == '-'

/-- Characters admitted by the `url_extractor` character class
`[a-zA-Z0-9-]` (no dot). -/
def isHostRunChar (c : Char) : Bool := c.isAlphanum || c == '-'

/-- Given the maximal `[a-zA-Z0-9.-]` run after an `https://`, the match of
`[a-zA-Z0-9.-]+\.trycloudflare\.com`: the text up to and including the
first `.trycloudflare.com`, provided at least one character precedes it. -/
def quickUrlInRun (run : List Char) : Option String :=
  match beforeFirst ".trycloudflare.com".data run with
  | some pre =>
    if pre.length > 0 then
      some ("https://" ++ String.mk pre ++ ".trycloudflare.com")
    else none
  | none => none

/-- Model of `get_quick_tunnel_url` / `_extract_quick_url`: first
`trycloudflare.com` URL in the logs, scanning line by line with the
containment pre-checks of the source, or `none` (the polling loop timed
out without the URL appearing). -/
def extractQuickUrl (logs : String) : Option String :=
  (splitLines logs.data).findSome? fun line =>
    if containsSeq "https://".data line && containsSeq "trycloudflare.com".data line then
      (restsAfterSeq "https://".data line).findSome? fun rest =>
        quickUrlInRun (rest.takeWhile isQuickUrlChar)
    else none

/-- One candidate match of `https://[a-zA-Z0-9-]+\.<suffix>` starting right
after an `https://` occurrence: a non-empty host run followed immediately
by the literal suffix. -/
def suffixUrlAt (suffix : String) (rest : List Char) : Option String :=
  let run := rest.takeWhile isHostRunChar
  if run.length > 0 && suffix.data.isPrefixOf (rest.drop run.length) then
    some ("https://" ++ String.mk run ++ suffix)
  else none

/-- Model of `extract_cloudflare_url` (url_extractor.py): first match of
`https://[a-zA-Z0-9-]+\.trycloudflare\.com` in the logs, line by line. -/
def extract_cloudflare_url (logs : String) : Option String :=
  (splitLines logs.data).findSome? fun line =>
    (restsAfterSeq "https://".data line).findSome?
      (suffixUrlAt ".trycloudflare.com")

/-- Model of `extract_ngrok_url` (url_extractor.py): per line, first match
of `https://[a-zA-Z0-9-]+\.ngrok(?:-free)?\.app`, then the older
`https://[a-zA-Z0-9-]+\.ngrok\.io` pattern. -/
def extract_ngrok_url (logs : String) : Option String :=
  (splitLines logs.data).findSome? fun line =>
    let modern := (restsAfterSeq "https://".data line).findSome? fun rest =>
      match suffixUrlAt ".ngrok-free.app" rest with
      | some u => some u
      | none => suffixUrlAt ".ngrok.app" rest
    match modern with
    | some u => some u
    | none => (restsAfterSeq "https://".data line).findSome? (suffixUrlAt ".ngrok.io")

/-- One candidate match of a pinggy URL with the given scheme and suffix. -/
def pinggyUrlAt (scheme suffix : String) (withPort : Bool) (rest : List Char) :
    Option String :=
  let run := rest.takeWhile isHostRunChar
  if run.length > 0 && suffix.data.isPrefixOf (rest.drop run.length) then
    if withPort then
      let after := (rest.drop run.length).drop suffix.length
      match after with
      | ':' :: more =>
        let digits := more.takeWhile Char.isDigit
        if digits.length > 0 then
          some (scheme ++ String.mk run ++ suffix ++ ":" ++ String.mk digits)
        else none
      | _ => none
    else some (scheme ++ String.mk run ++ suffix)
  else none

/-- Model of `extract_pinggy_url` (url_extractor.py): per line, the free
`https?://…a.free.pinggy.link` pattern, then the paid pattern, then the
`tcp://…:port` pattern. -/
def extract_pinggy_url (logs : String) : Option String :=
  (splitLines logs.data).findSome? fun line =>
    let tryPat (scheme suffix : String) (withPort : Bool) : Option String :=
      (restsAfterSeq scheme.data line).findSome?
        (pinggyUrlAt scheme suffix withPort)
    match tryPat "https://" ".a.free.pinggy.link" false with
    | some u => some u
    | none =>
      match tryPat "http://" ".a.free.pinggy.link" false with
      | some u => some u
      | none =>
        match tryPat "https://" ".a.pinggy.link" false with
        | some u => some u
        | none =>
          match tryPat "http://" ".a.pinggy.link" false with
          | some u => some u
          | none =>
            match tryPat "tcp://" ".a.free.pinggy.link" true with
            | some u => some u
            | none => tryPat "tcp://" ".a.pinggy.link" true

/-- Model of `extract_url_by_provider` (url_extractor.py). -/
def extract_url_by_provider (provider : String) (logs : String) :
    Option String :=
  let provider_lower := lowerStr provider
  if provider_lower == "cloudflare" then extract_cloudflare_url logs
  else if provider_lower == "ngrok" then extract_ngrok_url logs
  else if provider_lower == "pinggy" then extract_pinggy_url logs
  else none

/-! ## Driver locator (`app/services/tunnel_service.py`) -/

/-- Tunnel providers (`app/enums/tunnel_provider.py`). -/
inductive TunnelProvider where
  | cloudflare
  | ngrok
  | pinggy
  deriving DecidableEq, Repr

/-- The `.value` string of a provider. -/
def TunnelProvider.value : TunnelProvider → String
  | .cloudflare => "cloudflare"
  | .ngrok => "ngrok"
  | .pinggy => "pinggy"

/-- Tunnel protocols (`app/enums/tunnel_protocol.py`). -/
inductive TunnelProtocol where
  | http
  | https
  | tcp
  | udp
  deriving DecidableEq, Repr

/-- The `.value` string of a protocol. -/
def TunnelProtocol.value : TunnelProtocol → String
  | .http => "http"
  | .https => "https"
  | .tcp => "tcp"
  | .udp => "udp"

/-- The concrete driver classes `TunnelService.resolve` can instantiate. -/
inductive TunnelDriverImpl where
  | cloudflaredHTTPDriver
  | ngrokHTTPDriver
  | ngrokTCPDriver
  | pinggyDriver
  deriving DecidableEq, Repr

/-- Model of `TunnelService.resolve`: the branch structure of the source —
Cloudflare returns its driver before any protocol test; ngrok dispatches on
protocol; pinggy returns its driver; anything that falls through raises
`ValueError`. -/
def TunnelService.resolve (provider : TunnelProvider)
    (protocol : TunnelProtocol) : Except String TunnelDriverImpl :=
  match provider with
  | .cloudflare => .ok .cloudflaredHTTPDriver
  | .ngrok =>
    match protocol with
    | .http => .ok .ngrokHTTPDriver
    | .https => .ok .ngrokHTTPDriver
    | .tcp => .ok .ngrokTCPDriver
    | .udp =>
      .error ("No driver available for provider " ++ provider.value ++
        " with protocol " ++ protocol.value)
  | .pinggy => .ok .pinggyDriver

/-- Model of `TunnelService.get_supported_combinations`. -/
def TunnelService.get_supported_combinations :
    List (TunnelProvider × List TunnelProtocol) :=
  [(.cloudflare, [.http, .https, .tcp]),
   (.ngrok, [.http, .https, .tcp]),
   (.pinggy, [.http, .https, .tcp])]

/-- Model of `TunnelService.is_supported`: membership in the supported
combinations table. -/
def TunnelService.is_supported (provider : TunnelProvider)
    (protocol : TunnelProtocol) : Bool :=
  match TunnelService.get_supported_combinations.lookup provider with
  | some protocols => protocols.contains protocol
  | none => false

/-! ## Agent liveness registry (`AgentManager`, `app/controllers/agent.py`)

Timestamps are modelled as exact rationals (seconds); `utcnow - last`
becomes `now - last`.
-/

/-- The `AgentManager` TTL, 15 seconds (`self.agent_ttl_seconds = 15`). -/
def agent_ttl_seconds : Rat := 15

/-- In-memory state of `AgentManager`: the connection map's keys (the
transport handles themselves carry no information the embedding needs) and
the last-activity map. -/
structure AgentManager where
  agents : List String
  last_activity : List (String × Rat)
  deriving DecidableEq, Repr

/-- Model of `AgentManager.is_agent_connected`: `False` when the id is
missing from either map, otherwise whether the time since the last
activity is strictly below the TTL. -/
def AgentManager.is_agent_connected (m : AgentManager) (now : Rat)
    (server_id : String) : Bool :=
  if !(m.agents.contains server_id) || !(m.last_activity.lookup server_id).isSome then
    false
  else
    match m.last_activity.lookup server_id with
    | some last => decide (now - last < agent_ttl_seconds)
    | none => false

/-! ## Agent register handling (`websocket_agent_control`, agent.py)

The persisted `Server` rows are modelled as a list; `server_repository`
is imported by agent.py but its module is not part of the sources, so its
two lookups are modelled from the spec (see their doc comments).
-/

/-- A persisted host record (`app/models/server.py`), restricted to the
fields the register handler reads or writes. -/
structure Server where
  id : String
  name : String
  host : String
  description : Option String
  is_local : Bool
  is_reachable : Bool
  os_type : Option String
  network_ip : Option String
  agent_status : String
  deriving DecidableEq, Repr

/-- Modelled from the spec: `server_repository.get_localhost` (the
repository module is absent from the sources; only its callers are).  Per
the spec there is a single persisted local-host record, and the inline
query the same controller uses for it is
`select(Server).where(Server.is_local == True)).first()`: the first stored
host carrying the local designation. -/
def get_localhost (db : List Server) : Option Server :=
  db.find? (fun s => s.is_local)

/-- Modelled from the spec: `server_repository.get_by_id`, a plain
primary-key lookup (`db.get(Server, id)` as used throughout agent.py). -/
def get_by_id (db : List Server) (server_id : String) : Option Server :=
  db.find? (fun s => s.id == server_id)

/-- Apply an update to the stored row with the given id (the ORM mutates
the fetched row and commits it). -/
def updateServer (db : List Server) (server_id : String)
    (f : Server → Server) : List Server :=
  db.map (fun s => if s.id == server_id then f s else s)

/-- The `system_info` dict of a register message. -/
structure SystemInfo where
  platform : Option String
  hostname : Option String
  deriving DecidableEq, Repr

/-- A `register` control-channel message (with `server_id` present — the
handler drops messages without one before reaching any modelled branch). -/
structure RegisterMsg where
  server_id : String
  is_localhost : Bool
  system_info : SystemInfo
  local_ip : Option String
  deriving DecidableEq, Repr

/-- The decisive reply the handler sends for a register message. -/
inductive AgentReply where
  | configUpdate (server_id : String)
  | registrationSuccess (server_id : String)
  deriving DecidableEq, Repr

/-- Field updates of the localhost-reconnect branch (correct id). -/
def touchLocalhost (msg : RegisterMsg) (s : Server) : Server :=
  { s with is_reachable := true,
           os_type := dictGetD msg.system_info.platform s.os_type,
           network_ip := msg.local_ip,
           agent_status := "connected" }

/-- Field updates of the known-remote-agent branch. -/
def touchRemote (msg : RegisterMsg) (client_host : String) (s : Server) :
    Server :=
  { s with is_reachable := true,
           agent_status := "connected",
           name := (dictGetD msg.system_info.hostname (some s.name)).getD s.name,
           os_type := dictGetD msg.system_info.platform s.os_type,
           description := some ("Agent connected via " ++ client_host),
           network_ip := msg.local_ip }

/-- OS-conflict test of the register handler: both OS strings truthy and
different. -/
def osConflict (existing incoming : Option String) : Bool :=
  truthyStr existing && truthyStr incoming && existing != incoming

/-- The new `Server` row created for an unknown agent id. -/
def newServerFromMsg (msg : RegisterMsg) (client_host : String) : Server :=
  { id := msg.server_id,
    name := if msg.is_localhost then "localhost"
      else (msg.system_info.hostname.getD "Agent") ++ " (" ++
        strTake msg.server_id 8 ++ ")",
    host := client_host,
    description := some "Auto-registered via CLI.",
    is_local := msg.is_localhost,
    is_reachable := true,
    os_type := msg.system_info.platform,
    network_ip := msg.local_ip,
    agent_status := "connected" }

/-- The register handler's general path (taken when the agent does not
claim localhost, or claims it while no local record exists): look the id
up, detect OS conflicts, update or create. -/
def registerGeneral (db : List Server) (msg : RegisterMsg)
    (client_host fresh_id : String) : List Server × AgentReply :=
  match get_by_id db msg.server_id with
  | some server =>
    if osConflict server.os_type msg.system_info.platform then
      (db, .configUpdate fresh_id)
    else
      (updateServer db server.id (touchRemote msg client_host),
       .registrationSuccess server.id)
  | none =>
    (db ++ [newServerFromMsg msg client_host],
     .registrationSuccess msg.server_id)

/-- Model of the `register` branch of `websocket_agent_control`:
`fresh_id` stands for the `uuid.uuid4()` drawn in the OS-conflict branch. -/
def registerStep (db : List Server) (msg : RegisterMsg)
    (client_host fresh_id : String) : List Server × AgentReply :=
  if msg.is_localhost then
    match get_localhost db with
    | some local_server =>
      if local_server.id ≠ msg.server_id then
        (db, .configUpdate local_server.id)
      else
        (updateServer db local_server.id (touchLocalhost msg),
         .registrationSuccess local_server.id)
    | none => registerGeneral db msg client_host fresh_id
  else registerGeneral db msg client_host fresh_id

/-- At most one stored host carries the local designation. -/
def atMostOneLocal (db : List Server) : Prop :=
  db.countP (fun s => s.is_local) ≤ 1

/-! ## Docker containers and driver state -/

/-- A Docker container as the drivers observe it: id, name, status, the
logs the URL scrapers read, and its labels. -/
structure DContainer where
  cid : String
  name : String
  status : String
  logs : String
  labels : List (String × String)
  deriving DecidableEq, Repr

/-- Whether a container carries label `k` with value `v` (one entry of a
Docker label filter). -/
def labelEq (c : DContainer) (k v : String) : Bool :=
  c.labels.lookup k == some v

/-- `docker_client.containers.list` with default arguments lists running
containers only. -/
def runningContainers (st : List DContainer) : List DContainer :=
  st.filter (fun c => c.status == "running")

/-- In-memory state of `CloudflaredHTTPDriver` together with the Docker
daemon: the containers, `self.quick_tunnels` (port → scraped URL and
container id), `self.active_tunnels` (port → the `rule_key` its metadata
carries, `none` for quick tunnels), and the module-level `managed_rules`. -/
structure QtEntry where
  url : String
  cid : String
  deriving DecidableEq, Repr

/-- An `active_tunnels` entry, reduced to the one metadata field
`stop_tunnel` reads. -/
structure ATEntry where
  rule_key : Option String
  deriving DecidableEq, Repr

/-- An ingress rule of the `managed_rules` table. -/
structure IngressRule where
  hostname : String
  service : String
  port : Nat
  protocol : String
  deriving DecidableEq, Repr

/-- Combined driver + daemon state. -/
structure DriverState where
  docker : List DContainer
  quick_tunnels : List (Nat × QtEntry)
  active_tunnels : List (Nat × ATEntry)
  managed_rules : List (String × IngressRule)
  deriving DecidableEq, Repr

/-- Outcome of an external container-creation call
(`docker_client.containers.run` in the driver, `DockerService.create_container`
in the agent service).  `failAfterCreate` is the docker-py behaviour where
`run` (= create + start) creates the container and then raises before it is
running, leaving the created container behind. -/
inductive CreateOutcome where
  | ok
  | failClean
  | failAfterCreate
  deriving DecidableEq, Repr

/-! ## `CloudflaredHTTPDriver.stop_tunnel` (tunnel_driver.py 379–461) -/

/-- Method-1 label filter: `managed-by=localrun-agent` and
`service-id=<sid>`. -/
def matchesServiceId (c : DContainer) (sid : String) : Bool :=
  labelEq c "managed-by" "localrun-agent" && labelEq c "service-id" sid

/-- Method-2 label filter: `managed-by=localrun-agent`,
`tunnel-provider=cloudflare` and `tunnel-port=<port>`. -/
def matchesPortProvider (c : DContainer) (port : Nat) : Bool :=
  labelEq c "managed-by" "localrun-agent" &&
    labelEq c "tunnel-provider" "cloudflare" &&
    labelEq c "tunnel-port" (toString port)

/-- Container selection of `stop_tunnel`: by service-id label when a truthy
service id is supplied and a running container matches it, otherwise by the
(port, provider) label pair.  Both lookups list running containers. -/
def selectStopContainer (st : List DContainer) (port : Nat)
    (service_id : Option String) : Option DContainer :=
  let bySid :=
    match service_id with
    | some sid =>
      if sid == "" then none
      else (runningContainers st).find? (fun c => matchesServiceId c sid)
    | none => none
  match bySid with
  | some c => some c
  | none => (runningContainers st).find? (fun c => matchesPortProvider c port)

/-- Model of `CloudflaredHTTPDriver.stop_tunnel`.  A found container is
force-removed and both registries forget the port; otherwise a registered
named tunnel drops its ingress rule; otherwise the call returns `False`.
The source wraps the whole body in try/except returning `False`, so the
model is a total function into `Bool × DriverState`; the remote config
push performed after a rule removal mutates no local state. -/
def stopTunnel (s : DriverState) (port : Nat) (service_id : Option String) :
    Bool × DriverState :=
  match selectStopContainer s.docker port service_id with
  | some c =>
    (true,
     { s with docker := s.docker.filter (fun d => !(d.cid == c.cid)),
              quick_tunnels := alistErase s.quick_tunnels port,
              active_tunnels := alistErase s.active_tunnels port })
  | none =>
    match s.active_tunnels.lookup port with
    | some ti =>
      let rules' :=
        match ti.rule_key with
        | some rk =>
          if (s.managed_rules.lookup rk).isSome then alistErase s.managed_rules rk
          else s.managed_rules
        | none => s.managed_rules
      (true, { s with managed_rules := rules',
                      active_tunnels := alistErase s.active_tunnels port })
    | none => (false, s)

/-! ## `CloudflaredHTTPDriver._create_quick_tunnel` and the quick path of
`create_tunnel` (tunnel_driver.py 82–330) -/

/-- The quick-tunnel container name
`cloudflared-quick-{port}-{short_id}`, with
`service_id = config.service_id or "unknown"` and `short_id` its first
eight characters. -/
def driverQuickName (port : Nat) (service_id : Option String) : String :=
  let sid :=
    match service_id with
    | none => "unknown"
    | some s => if s == "" then "unknown" else s
  "cloudflared-quick-" ++ toString port ++ "-" ++ strTake sid 8

/-- The container `docker_client.containers.run` creates for a quick
tunnel, with the labels of the source. -/
def mkDriverQuickContainer (port : Nat) (service_id : Option String)
    (fcid flogs status : String) : DContainer :=
  let sid :=
    match service_id with
    | none => "unknown"
    | some s => if s == "" then "unknown" else s
  { cid := fcid,
    name := driverQuickName port service_id,
    status := status,
    logs := flogs,
    labels := [("managed-by", "localrun-agent"),
               ("tunnel-type", "quick"),
               ("tunnel-provider", "cloudflare"),
               ("tunnel-port", toString port),
               ("service-id", sid)] }

/-- A quick-tunnel `TunnelConfig` (no custom domain/subdomain, which is what
routes `create_tunnel` into the quick branch). -/
structure TunnelConfig where
  port : Nat
  protocol : String
  host : String
  service_id : Option String
  deriving DecidableEq, Repr

/-- The `TunnelInfo` record returned by `create_tunnel`, restricted to the
fields the claims mention. -/
structure TunnelInfo where
  tunnel_id : String
  public_url : String
  local_target : String
  port : Nat
  provider : String
  protocol : String
  process_id : Option String
  deriving DecidableEq, Repr

/-- Body of `_create_quick_tunnel` past the running-container short
circuit: remove any same-named leftover container, then run a new one.
`outcome` is the result of the external `containers.run` call (including
docker-py's create-then-start partial failure, `failAfterCreate`, which
leaves a created container behind); `fcid` and `flogs` are the id and
eventual log contents of the container it creates.  On failure the except
handler (tunnel_driver.py 325–330) only deletes the port's
`quick_tunnels` entry and re-raises — it removes no container, so a
container created by the failed run stays in the daemon state. -/
def driverCreateQuickBody (s : DriverState) (port : Nat)
    (service_id : Option String) (outcome : CreateOutcome)
    (fcid flogs : String) :
    Except String String × DriverState :=
  let container_name := driverQuickName port service_id
  let docker1 :=
    match s.docker.find? (fun c => c.name == container_name) with
    | some _ => s.docker.filter (fun c => !(c.name == container_name))
    | none => s.docker
  match outcome with
  | .ok =>
    let c := mkDriverQuickContainer port service_id fcid flogs "running"
    let url :=
      match extractQuickUrl flogs with
      | some u => u
      | none => "https://quick-tunnel-" ++ toString port ++ ".trycloudflare.com"
    (.ok url,
     { s with docker := docker1 ++ [c],
              quick_tunnels := alistSet s.quick_tunnels port ⟨url, c.cid⟩,
              active_tunnels := alistSet s.active_tunnels port ⟨none⟩ })
  | .failClean =>
    (.error "Error creando Quick Tunnel",
     { s with docker := docker1,
              quick_tunnels := alistErase s.quick_tunnels port })
  | .failAfterCreate =>
    (.error "Error creando Quick Tunnel",
     { s with docker := docker1 ++
         [mkDriverQuickContainer port service_id fcid flogs "created"],
              quick_tunnels := alistErase s.quick_tunnels port })

/-- Model of `_create_quick_tunnel`: reuse a running same-named container
whose logs yield a URL, otherwise fall through to creation. -/
def driverCreateQuickTunnel (s : DriverState) (port : Nat)
    (service_id : Option String) (outcome : CreateOutcome)
    (fcid flogs : String) :
    Except String String × DriverState :=
  match s.docker.find? (fun c => c.name == driverQuickName port service_id) with
  | some existing =>
    if existing.status == "running" then
      match extractQuickUrl existing.logs with
      | some url =>
        (.ok url,
         { s with quick_tunnels :=
            alistSet s.quick_tunnels port ⟨url, existing.cid⟩ })
      | none => driverCreateQuickBody s port service_id outcome fcid flogs
    else driverCreateQuickBody s port service_id outcome fcid flogs
  | none => driverCreateQuickBody s port service_id outcome fcid flogs

/-- Model of the quick branch of `CloudflaredHTTPDriver.create_tunnel`:
run `_create_quick_tunnel`, read the created container back out of
`quick_tunnels` for the process id, build the `TunnelInfo`, and register
it in `active_tunnels`.  Failures are re-raised as
`TunnelCreationException`. -/
def driverCreateTunnelQuick (s : DriverState) (cfg : TunnelConfig)
    (outcome : CreateOutcome) (fcid flogs : String) :
    Except String TunnelInfo × DriverState :=
  match driverCreateQuickTunnel s cfg.port cfg.service_id outcome fcid
      flogs with
  | (.error e, s1) => (.error ("Error creando tunel: " ++ e), s1)
  | (.ok public_url, s1) =>
    let process_id :=
      match s1.quick_tunnels.lookup cfg.port with
      | some q => some (strTake q.cid 12)
      | none => none
    let info : TunnelInfo :=
      { tunnel_id := "quick-" ++ toString cfg.port,
        public_url := public_url,
        local_target := "localhost:" ++ toString cfg.port,
        port := cfg.port,
        provider := "cloudflare",
        protocol := cfg.protocol,
        process_id := process_id }
    (.ok info,
     { s1 with active_tunnels := alistSet s1.active_tunnels cfg.port ⟨none⟩ })

/-! ## `TunnelAgentService` (tunnel_agent_service.py) -/

/-- Model of `DockerService.remove_container(name, force=True)`: success as
a no-op when the name is absent, otherwise drop every container with that
name.  (A failure of the underlying force-remove is logged and returns
`False`; the daemon-side failure of a force removal is not modelled.) -/
def removeContainer (docker : List DContainer) (name : String) :
    Bool × List DContainer :=
  match docker.find? (fun c => c.name == name) with
  | none => (true, docker)
  | some _ => (true, docker.filter (fun c => !(c.name == name)))

/-- The container `TunnelAgentService.create_quick_tunnel` creates, with
the labels of the source. -/
def mkAgentQuickContainer (port : Nat) (fcid flogs status : String) :
    DContainer :=
  { cid := fcid,
    name := "cloudflared-quick-" ++ toString port,
    status := status,
    logs := flogs,
    labels := [("managed-by", "localrun-agent"),
               ("tunnel-type", "quick"),
               ("port", toString port)] }

/-- Reuse short circuit of `TunnelAgentService.create_quick_tunnel`
(lines 93–107): the URL scraped from a running container already named
`cloudflared-quick-{port}`, when there is one.  The full model is
`agentCreateQuickTunnel`: reuse when possible, otherwise create a
container; on a creation error the except handler force-removes the
container by name, deletes the port's `quick_tunnels` registration and
re-raises.  State is `(result, docker, quick_tunnels)`. -/
def agentQuickReuse (docker : List DContainer) (port : Nat) : Option String :=
  match docker.find?
      (fun c => c.name == "cloudflared-quick-" ++ toString port) with
  | some existing =>
    if existing.status == "running" then extractQuickUrl existing.logs
    else none
  | none => none

/-- Creation part of `TunnelAgentService.create_quick_tunnel` past the
reuse short circuit (see `agentCreateQuickTunnel`). -/
def agentCreateQuickBody (docker : List DContainer)
    (reg : List (Nat × String)) (port : Nat)
    (outcome : CreateOutcome) (fcid flogs : String) :
    Except String String × List DContainer × List (Nat × String) :=
  let container_name := "cloudflared-quick-" ++ toString port
  match outcome with
  | .ok =>
    let c := mkAgentQuickContainer port fcid flogs "running"
    let url :=
      match extractQuickUrl flogs with
      | some u => u
      | none => "https://quick-tunnel-" ++ toString port ++ ".trycloudflare.com"
    (.ok url, docker ++ [c], alistSet reg port url)
  | .failClean =>
    (.error "Error creando Quick Tunnel",
     (removeContainer docker container_name).2, alistErase reg port)
  | .failAfterCreate =>
    (.error "Error creando Quick Tunnel",
     (removeContainer
        (docker ++ [mkAgentQuickContainer port fcid flogs "created"])
        container_name).2,
     alistErase reg port)

def agentCreateQuickTunnel (docker : List DContainer)
    (reg : List (Nat × String)) (port : Nat)
    (outcome : CreateOutcome) (fcid flogs : String) :
    Except String String × List DContainer × List (Nat × String) :=
  match agentQuickReuse docker port with
  | some url => (.ok url, docker, alistSet reg port url)
  | none => agentCreateQuickBody docker reg port outcome fcid flogs

/-- Model of `TunnelAgentService.delete_named_tunnel_route`: deleting an
absent rule key logs a warning and returns `True` without touching the
table; deleting a present key drops it and returns the result of the
remote config push (`updateOk`). -/
def deleteNamedTunnelRoute (rules : List (String × IngressRule))
    (hostname protocol : String) (updateOk : Bool) :
    Bool × List (String × IngressRule) :=
  let rule_key := hostname ++ "_" ++ protocol
  if (rules.lookup rule_key).isSome then (updateOk, alistErase rules rule_key)
  else (true, rules)

/-! ## Reconciliation (`sync_service_states`, `ReconcileServicesUseCase`) -/

/-- An `ExposedService` row (`app/models/service.py`), restricted to the
fields reconciliation reads or writes. -/
structure SyncService where
  sid : String
  name : String
  port : Nat
  domain : Option String
  subdomain : Option String
  status : String
  public_url : Option String
  provider_key : String
  deriving DecidableEq, Repr

/-- `Service.is_named_service`: `bool(self.domain and self.subdomain)`
under Python truthiness. -/
def SyncService.is_named_service (s : SyncService) : Bool :=
  truthyStr s.domain && truthyStr s.subdomain

/-- `Service.is_quick_service`. -/
def SyncService.is_quick_service (s : SyncService) : Bool :=
  !s.is_named_service

/-- The f-string `f"{service.subdomain}.{service.domain}"` (Python renders
a missing value as the text `None`). -/
def SyncService.hostname (s : SyncService) : String :=
  (s.subdomain.getD "None") ++ "." ++ (s.domain.getD "None")

/-- Observed quick tunnels: `list_quick_tunnels` keeps the containers
labelled `tunnel-type=quick` whose `port` label is all digits. -/
def list_quick_tunnel_ports (docker : List DContainer) : List Nat :=
  (docker.filter (fun c => labelEq c "tunnel-type" "quick")).filterMap
    (fun c => (c.labels.lookup "port").bind String.toNat?)

/-- Observed named routes: `list_named_tunnel_routes` projects hostname and
port out of every managed rule. -/
def list_named_tunnel_routes (rules : List (String × IngressRule)) :
    List (String × Nat) :=
  rules.map (fun p => (p.2.hostname, p.2.port))

/-- `is_actually_running` of `sync_service_states`: a quick service is
present iff some observed quick tunnel carries its port; a named service is
present iff some observed route carries its hostname and port. -/
def isActuallyRunning (quick : List Nat) (named : List (String × Nat))
    (s : SyncService) : Bool :=
  if s.is_quick_service then quick.contains s.port
  else named.any (fun r => r.1 == s.hostname && r.2 == s.port)

/-- One recorded correction of a sync pass. -/
structure SyncResult where
  sid : String
  old_status : String
  new_status : String
  deriving DecidableEq, Repr

/-- The per-service body of `sync_service_states`: present and not
declared running ⇒ persist `running`; absent and declared running ⇒
persist `stopped`; otherwise leave the row untouched and record nothing. -/
def syncOne (quick : List Nat) (named : List (String × Nat))
    (s : SyncService) : SyncService × Option SyncResult :=
  let running := isActuallyRunning quick named s
  if running && s.status != "running" then
    ({ s with status := "running" }, some ⟨s.sid, s.status, "running"⟩)
  else if !running && s.status == "running" then
    ({ s with status := "stopped" }, some ⟨s.sid, s.status, "stopped"⟩)
  else (s, none)

/-- Model of `TunnelAgentService.sync_service_states`: observe the
infrastructure once, then correct every service against it.  Returns the
persisted rows and the list of recorded corrections (a status is written
exactly when a correction is recorded). -/
def sync_service_states (docker : List DContainer)
    (rules : List (String × IngressRule)) (services : List SyncService) :
    List SyncService × List SyncResult :=
  let quick := list_quick_tunnel_ports docker
  let named := list_named_tunnel_routes rules
  let pairs := services.map (syncOne quick named)
  (pairs.map Prod.fst, pairs.filterMap Prod.snd)

/-- Outcome of `ReconcileServicesUseCase._reconcile_container` for one
container. -/
inductive ReconOutcome where
  | updated (s : SyncService)
  | orphaned (port : Nat) (provider : String)
  | skipped
  deriving DecidableEq, Repr

/-- Model of `_reconcile_container` (reconcile_services.py 101–181): decode
port and provider from labels (`tunnel-port` or `port`, `tunnel-provider`
or `provider`, with Python-or truthiness), find the first service with
that port whose provider matches the label when one is present, and mark
it running with the public URL extracted from the container logs when
extraction succeeds (else the service's previous URL, else the empty
string).  `services` is the candidate list the use case passes in (rows
with status error/stopped/starting). -/
def reconcile_container (c : DContainer) (services : List SyncService) :
    ReconOutcome :=
  let portLabel := orGet (c.labels.lookup "tunnel-port") (c.labels.lookup "port")
  let providerLabel :=
    truthyOpt (orGet (c.labels.lookup "tunnel-provider") (c.labels.lookup "provider"))
  match truthyOpt portLabel with
  | none => .skipped
  | some pstr =>
    match pstr.toNat? with
    | none => .skipped
    | some port =>
      match services.find? (fun s => s.port == port &&
          (match providerLabel with
           | some pr => lowerStr s.provider_key == lowerStr pr
           | none => true)) with
      | none => .orphaned port (providerLabel.getD "unknown")
      | some s =>
        let public_url :=
          match extract_url_by_provider s.provider_key c.logs with
          | some u => u
          | none => s.public_url.getD ""
        .updated { s with status := "running", public_url := some public_url }

/-! ## Service creation (`CreateServiceUseCase`, create_service.py) -/

/-- A stored provider row, restricted to what the use case checks. -/
structure ProviderRec where
  key : String
  is_active : Bool
  deriving DecidableEq, Repr

/-- An `ExposedService` creation request. -/
structure ServiceCreateRequest where
  name : String
  protocol : String
  port : Nat
  host : String
  provider_key : String
  deriving DecidableEq, Repr

/-- A stored service row, restricted to the creation use case's fields. -/
structure ServiceRow where
  sid : Nat
  name : String
  protocol : String
  port : Nat
  host : String
  provider_key : String
  user_id : Nat
  status : String
  deriving DecidableEq, Repr

/-- Model of `CreateServiceUseCase.execute`: reject when the provider is
missing or inactive; reject when `Service.first_where(user_id=…, port=…,
host=…)` finds an existing row; otherwise append the new row with status
`stopped`.  Returns the result and the resulting table (unchanged on
rejection). -/
def createService (providers : List ProviderRec) (db : List ServiceRow)
    (req : ServiceCreateRequest) (user_id : Nat) (fresh_id : Nat) :
    Except String ServiceRow × List ServiceRow :=
  match providers.find? (fun p => p.key == req.provider_key && p.is_active) with
  | none =>
    (.error ("Proveedor " ++ req.provider_key ++ " no existe o esta inactivo"), db)
  | some _ =>
    match db.find? (fun s => s.user_id == user_id && s.port == req.port &&
        s.host == req.host) with
    | some _ =>
      (.error ("Ya existe un servicio en " ++ req.host ++ ":" ++ toString req.port),
       db)
    | none =>
      let row : ServiceRow :=
        { sid := fresh_id,
          name := req.name,
          protocol := req.protocol,
          port := req.port,
          host := req.host,
          provider_key := req.provider_key,
          user_id := user_id,
          status := "stopped" }
      (.ok row, db ++ [row])

/-- An already-stopped service at this port/service id: `stop_tunnel` can
select no container (by either label method) and the port is absent from
`active_tunnels`. -/
def noStopTarget (s : DriverState) (port : Nat)
    (service_id : Option String) : Prop :=
  selectStopContainer s.docker port service_id = none ∧
  s.active_tunnels.lookup port = none

/-! ## Concrete scenario instances used by witnesses and counterexamples -/

/-- The persisted local host record `Y` of the identity-drift scenario. -/
def c1_localY : Server :=
  { id := "Y", name := "localhost", host := "127.0.0.1", description := none,
    is_local := true, is_reachable := true, os_type := some "Linux",
    network_ip := some "172.17.0.1", agent_status := "connected" }

/-- Storage holding only the local host `Y`. -/
def c1_db : List Server := [c1_localY]

/-- A register message from an agent still claiming the stale id `X`. -/
def c1_msg : RegisterMsg :=
  { server_id := "X", is_localhost := true,
    system_info := { platform := some "Linux", hostname := some "devbox" },
    local_ip := some "10.0.0.2" }

/-- Empty driver state for the quick-tunnel scenarios. -/
def c3_s0 : DriverState :=
  { docker := [], quick_tunnels := [], active_tunnels := [], managed_rules := [] }

/-- A quick-tunnel configuration for port 3000. -/
def c3_cfg : TunnelConfig :=
  { port := 3000, protocol := "http", host := "localhost",
    service_id := some "svc12345" }

/-- First `create_tunnel` call: the container comes up with empty logs, so
URL extraction times out and the fallback URL is used. -/
def c3_r1 : Except String TunnelInfo × DriverState :=
  driverCreateTunnelQuick c3_s0 c3_cfg .ok "aaa" ""

/-- Second `create_tunnel` call in immediate succession with the same
configuration, still with no URL in the logs. -/
def c3_r2 : Except String TunnelInfo × DriverState :=
  driverCreateTunnelQuick c3_r1.2 c3_cfg .ok "bbb" ""

/-- Logs that do contain a quick-tunnel URL. -/
def c3_goodLogs : String := "https://abc.trycloudflare.com"

/-- A running quick-tunnel container for service `svc12345` on port 3000
with the driver's labels. -/
def c7_container : DContainer :=
  { cid := "ccc", name := "cloudflared-quick-3000-svc12345",
    status := "running", logs := "",
    labels := [("managed-by", "localrun-agent"),
               ("tunnel-type", "quick"),
               ("tunnel-provider", "cloudflare"),
               ("tunnel-port", "3000"),
               ("service-id", "svc12345")] }

/-- Driver state in which exactly that container is up and registered. -/
def c7_state : DriverState :=
  { docker := [c7_container],
    quick_tunnels := [(3000, ⟨"https://abc.trycloudflare.com", "ccc"⟩)],
    active_tunnels := [(3000, ⟨none⟩)],
    managed_rules := [] }

/-- A quick (no custom domain) service on port 3000, declared running. -/
def c4_svcRunning : SyncService :=
  { sid := "s1", name := "web", port := 3000, domain := none,
    subdomain := none, status := "running", public_url := none,
    provider_key := "cloudflare" }

/-- The same quick service declared stopped. -/
def c4_svcStopped : SyncService :=
  { sid := "s1", name := "web", port := 3000, domain := none,
    subdomain := none, status := "stopped", public_url := none,
    provider_key := "cloudflare" }

/-- A running quick-tunnel container on port 3000 whose logs contain the
assigned public URL. -/
def c4_container : DContainer :=
  { cid := "ddd", name := "cloudflared-quick-3000", status := "running",
    logs := "https://abc.trycloudflare.com",
    labels := [("managed-by", "localrun-agent"), ("tunnel-type", "quick"),
               ("port", "3000"), ("tunnel-provider", "cloudflare")] }

/-- An existing service row of user 1 on localhost:3000 via cloudflare. -/
def c9_existing : ServiceRow :=
  { sid := 1, name := "api", protocol := "http", port := 3000,
    host := "localhost", provider_key := "cloudflare", user_id := 1,
    status := "stopped" }

/-- The active cloudflare provider row. -/
def c9_providers : List ProviderRec := [{ key := "cloudflare", is_active := true }]

/-- A request by a different user for the same host, port and provider. -/
def c9_req : ServiceCreateRequest :=
  { name := "api2", protocol := "http", port := 3000, host := "localhost",
    provider_key := "cloudflare" }

/-- Creation attempt of user 2 against the table holding user 1's row. -/
def c9_result : Except String ServiceRow × List ServiceRow :=
  createService c9_providers [c9_existing] c9_req 2 7

/-- The row user 2's creation attempt produces. -/
def c9_created : ServiceRow :=
  { sid := 7, name := "api2", protocol := "http", port := 3000,
    host := "localhost", provider_key := "cloudflare", user_id := 2,
    status := "stopped" }

/-! ## Helper lemmas -/

theorem lookup_alistErase {α β : Type} [BEq α] [LawfulBEq α]
    (l : List (α × β)) (k : α) : (alistErase l k).lookup k = none := by
  induction l with
  | nil => rfl
  | cons p t ih =>
    unfold alistErase at ih ⊢
    cases h : (p.1 == k) with
    | true => simpa [List.filter_cons, h] using ih
    | false =>
      have hk : (k == p.1) = false := by
        rcases p with ⟨k1, v1⟩
        simp only [beq_eq_false_iff_ne] at h ⊢
        exact fun he => h he.symm
      simp [List.filter_cons, h, List.lookup, hk, ih]

theorem lookup_map_set {α β : Type} [BEq α] [LawfulBEq α]
    (l : List (α × β)) (k : α) (v : β) (w : β) (hw : l.lookup k = some w) :
    (l.map (fun p => if p.1 == k then (k, v) else p)).lookup k = some v := by
  induction l with
  | nil => simp [List.lookup] at hw
  | cons p t ih =>
    cases h : (p.1 == k) with
    | true =>
      simp only [List.map_cons]
      rw [if_pos h]
      simp [List.lookup, beq_self_eq_true]
    | false =>
      have hne : ¬ ((p.1 == k) = true) := by simp [h]
      have hk : (k == p.1) = false := by
        rcases p with ⟨k1, v1⟩
        simp only [beq_eq_false_iff_ne] at h ⊢
        exact fun he => h he.symm
      have hw' : t.lookup k = some w := by
        simpa [List.lookup, hk] using hw
      simp only [List.map_cons]
      rw [if_neg hne]
      simp [List.lookup, hk, ih hw']

theorem lookup_append_right {α β : Type} [BEq α] [LawfulBEq α]
    (l : List (α × β)) (k : α) (v : β) (h : l.lookup k = none) :
    (l ++ [(k, v)]).lookup k = some v := by
  induction l with
  | nil => simp [List.lookup, beq_self_eq_true]
  | cons p t ih =>
    cases hk : (k == p.1) with
    | true => simp [List.lookup, hk] at h
    | false =>
      have h' : t.lookup k = none := by simpa [List.lookup, hk] using h
      simp [List.cons_append, List.lookup, hk, ih h']

theorem lookup_alistSet {α β : Type} [BEq α] [LawfulBEq α]
    (l : List (α × β)) (k : α) (v : β) :
    (alistSet l k v).lookup k = some v := by
  unfold alistSet
  cases h : (l.lookup k) with
  | none => simp [h, lookup_append_right l k v h]
  | some w => simp [h, lookup_map_set l k v w h]

theorem find?_filter_not {α : Type} (l : List α) (p : α → Bool) :
    (l.filter (fun a => !(p a))).find? p = none := by
  refine List.find?_eq_none.mpr ?_
  intro x hx
  have hmem := List.mem_filter.mp hx
  simp only [Bool.not_eq_true'] at hmem
  simp [hmem.2]

theorem find?_append_left_none {α : Type} (l₁ l₂ : List α) (p : α → Bool)
    (h : l₁.find? p = none) : (l₁ ++ l₂).find? p = none ↔ l₂.find? p = none := by
  induction l₁ with
  | nil => simp
  | cons a t ih =>
    cases ha : p a with
    | true => simp [List.find?, ha] at h
    | false =>
      have h' : t.find? p = none := by simpa [List.find?, ha] using h
      simpa [List.find?_cons, ha] using ih h'

theorem find?_append_of_left_none {α : Type} (l₁ l₂ : List α) (p : α → Bool)
    (h : l₁.find? p = none) : (l₁ ++ l₂).find? p = l₂.find? p := by
  induction l₁ with
  | nil => simp
  | cons a t ih =>
    cases ha : p a with
    | true => simp [List.find?, ha] at h
    | false =>
      have h' : t.find? p = none := by simpa [List.find?, ha] using h
      simpa [List.find?_cons, ha] using ih h'

theorem removeContainer_find?_none (docker : List DContainer) (name : String) :
    ((removeContainer docker name).2.find? (fun c => c.name == name)) = none := by
  unfold removeContainer
  cases h : docker.find? (fun c => c.name == name) with
  | none => exact h
  | some c => exact find?_filter_not docker (fun c => c.name == name)

theorem countP_updateServer (db : List Server) (sid : String)
    (f : Server → Server) (hf : ∀ s, (f s).is_local = s.is_local) :
    (updateServer db sid f).countP (fun s => s.is_local) =
      db.countP (fun s => s.is_local) := by
  induction db with
  | nil => rfl
  | cons a t ih =>
    unfold updateServer at ih ⊢
    simp only [List.map_cons, List.countP_cons, ih]
    congr 1
    cases h : (a.id == sid) with
    | true => simp [hf a]
    | false => simp

theorem registerGeneral_preserves (db : List Server) (msg : RegisterMsg)
    (client_host fresh_id : String) (h : atMostOneLocal db)
    (hnew : msg.is_localhost = false ∨ db.countP (fun s => s.is_local) = 0) :
    atMostOneLocal (registerGeneral db msg client_host fresh_id).1 := by
  unfold registerGeneral
  cases hid : get_by_id db msg.server_id with
  | some server =>
    cases hc : osConflict server.os_type msg.system_info.platform with
    | true => simpa [hc] using h
    | false =>
      have hp : ∀ s, (touchRemote msg client_host s).is_local = s.is_local :=
        fun _ => rfl
      simpa [hc, atMostOneLocal, countP_updateServer db server.id _ hp]
        using h
  | none =>
    simp only [atMostOneLocal, List.countP_append]
    rcases hnew with hfalse | hzero
    · have : (newServerFromMsg msg client_host).is_local = false := by
        simp [newServerFromMsg, hfalse]
      simpa [List.countP_cons, this] using h
    · have hle : List.countP (fun s => s.is_local)
          [newServerFromMsg msg client_host] ≤ 1 := by
        simp [List.countP_cons]
        cases (newServerFromMsg msg client_host).is_local <;> simp
      omega

/-- C1: when a register message asserts the local flag while a persisted
local host with a different id exists, the control channel replies
`config_update` carrying the persisted local host's id and leaves storage
untouched; and one register step never raises the count of local host
records above one. -/
theorem c1_local_identity_guard :
    (∀ (db : List Server) (msg : RegisterMsg)
       (client_host fresh_id : String) (local_server : Server),
        msg.is_localhost = true →
        get_localhost db = some local_server →
        local_server.id ≠ msg.server_id →
        registerStep db msg client_host fresh_id =
          (db, .configUpdate local_server.id)) ∧
    (∀ (db : List Server) (msg : RegisterMsg) (client_host fresh_id : String),
        atMostOneLocal db →
        atMostOneLocal (registerStep db msg client_host fresh_id).1) := by
  constructor
  · intro db msg client_host fresh_id local_server hloc hfind hne
    simp [registerStep, hloc, hfind, hne]
  · intro db msg client_host fresh_id h
    unfold registerStep
    cases hloc : msg.is_localhost with
    | false =>
      simpa using registerGeneral_preserves db msg client_host fresh_id h
        (Or.inl hloc)
    | true =>
      cases hfind : get_localhost db with
      | some local_server =>
        cases hne : decide (local_server.id ≠ msg.server_id) with
        | true =>
          simpa [of_decide_eq_true hne] using h
        | false =>
          have hp : ∀ s, (touchLocalhost msg s).is_local = s.is_local :=
            fun _ => rfl
          have hne' := of_decide_eq_false hne
          simpa [hne', atMostOneLocal,
            countP_updateServer db local_server.id _ hp] using h
      | none =>
        have hzero : db.countP (fun s => s.is_local) = 0 := by
          refine List.countP_eq_zero.mpr ?_
          intro a ha
          have := List.find?_eq_none.mp hfind a ha
          simpa using this
        simpa using registerGeneral_preserves db msg client_host fresh_id h
          (Or.inr hzero)

/-- Witness for C1: storage holds local host `Y`; an agent registers as
local claiming `X`; the step replies `config_update Y` without touching
storage, and the one-local invariant is preserved. -/
theorem c1_witness :
    registerStep c1_db c1_msg "172.17.0.1" "fresh-id" =
      (c1_db, .configUpdate "Y") ∧
    atMostOneLocal (registerStep c1_db c1_msg "172.17.0.1" "fresh-id").1 := by
  constructor
  · exact c1_local_identity_guard.1 c1_db c1_msg "172.17.0.1" "fresh-id"
      c1_localY rfl rfl (by decide)
  · exact c1_local_identity_guard.2 c1_db c1_msg "172.17.0.1" "fresh-id"
      (by unfold atMostOneLocal; decide)

theorem driverCreateQuickBody_error (s : DriverState) (port : Nat)
    (service_id : Option String) (outcome : CreateOutcome)
    (fcid flogs e : String)
    (herr : (driverCreateQuickBody s port service_id outcome fcid flogs).1 =
      .error e) :
    (driverCreateQuickBody s port service_id outcome fcid
        flogs).2.quick_tunnels.lookup port = none := by
  unfold driverCreateQuickBody at herr ⊢
  cases outcome with
  | ok => simp at herr
  | failClean => simpa using lookup_alistErase s.quick_tunnels port
  | failAfterCreate => simpa using lookup_alistErase s.quick_tunnels port

theorem driverCreateQuickBody_failClean_mem (s : DriverState) (port : Nat)
    (service_id : Option String) (fcid flogs : String) :
    ∀ c, c ∈ (driverCreateQuickBody s port service_id .failClean fcid
        flogs).2.docker → c ∈ s.docker := by
  intro c hc
  unfold driverCreateQuickBody at hc
  simp only at hc
  cases hf : s.docker.find?
      (fun c => c.name == driverQuickName port service_id) with
  | some d =>
    rw [hf] at hc
    exact (List.mem_filter.mp hc).1
  | none =>
    rw [hf] at hc
    exact hc

theorem driverCreateQuickBody_failAfterCreate_orphan (s : DriverState)
    (port : Nat) (service_id : Option String) (fcid flogs : String) :
    mkDriverQuickContainer port service_id fcid flogs "created" ∈
      (driverCreateQuickBody s port service_id .failAfterCreate fcid
        flogs).2.docker := by
  unfold driverCreateQuickBody
  simp only
  cases hf : s.docker.find?
      (fun c => c.name == driverQuickName port service_id) with
  | some d => simp
  | none => simp

theorem agentCreateQuickTunnel_cases (docker : List DContainer)
    (reg : List (Nat × String)) (port : Nat) (outcome : CreateOutcome)
    (fcid flogs : String) :
    (∃ url, agentCreateQuickTunnel docker reg port outcome fcid flogs =
        (.ok url, docker, alistSet reg port url)) ∨
    agentCreateQuickTunnel docker reg port outcome fcid flogs =
      agentCreateQuickBody docker reg port outcome fcid flogs := by
  unfold agentCreateQuickTunnel
  cases hre : agentQuickReuse docker port with
  | some url => exact Or.inl ⟨url, rfl⟩
  | none => exact Or.inr rfl

theorem driverCreateQuickTunnel_cases (s : DriverState) (port : Nat)
    (service_id : Option String) (outcome : CreateOutcome)
    (fcid flogs : String) :
    (∃ url q, driverCreateQuickTunnel s port service_id outcome fcid flogs =
        (.ok url,
         { s with quick_tunnels := alistSet s.quick_tunnels port q })) ∨
    driverCreateQuickTunnel s port service_id outcome fcid flogs =
      driverCreateQuickBody s port service_id outcome fcid flogs := by
  unfold driverCreateQuickTunnel
  split
  · split
    · split
      · exact Or.inl ⟨_, _, rfl⟩
      · exact Or.inr rfl
    · exact Or.inr rfl
  · exact Or.inr rfl

/-- C2 as stated is false on the driver path: `containers.run` is
docker-py create-then-start, so it can raise after having created the
container, and `_create_quick_tunnel`'s except handler
(tunnel_driver.py 325–330) only deletes the port's `quick_tunnels` entry
— it removes no container.  Concretely: a `create_tunnel` call for
port 3000 whose run call creates the container and then raises ends in an
error while the container created during that call is still in the daemon
state (orphaned), with only the registry cleared. -/
theorem c2_counterexample :
    (driverCreateTunnelQuick c3_s0 c3_cfg .failAfterCreate "aaa" "").1 =
      .error "Error creando tunel: Error creando Quick Tunnel" ∧
    (driverCreateTunnelQuick c3_s0 c3_cfg .failAfterCreate
        "aaa" "").2.docker.map (fun c => (c.name, c.status)) =
      [("cloudflared-quick-3000-svc12345", "created")] ∧
    (driverCreateTunnelQuick c3_s0 c3_cfg .failAfterCreate
        "aaa" "").2.quick_tunnels.lookup 3000 = none :=
  ⟨rfl, rfl, rfl⟩

/-- C2 (amended): on a failed quick-tunnel creation, both implementations
clear the in-memory registry entry for the port.
`TunnelAgentService.create_quick_tunnel` (whose except handler
force-removes by container name) additionally removes any container
already created during the call — even one a partially failed
`containers.run` left behind — so that path orphans nothing.
`CloudflaredHTTPDriver._create_quick_tunnel`'s handler removes no
container: a clean run failure adds no container, but a run failure after
creation leaves the created container behind in the daemon state. -/
theorem c2_create_failure_rollback :
    (∀ (docker : List DContainer) (reg : List (Nat × String)) (port : Nat)
       (outcome : CreateOutcome) (fcid flogs e : String),
        (agentCreateQuickTunnel docker reg port outcome fcid flogs).1 =
          .error e →
        (agentCreateQuickTunnel docker reg port outcome fcid flogs).2.1.find?
            (fun c => c.name == "cloudflared-quick-" ++ toString port) = none ∧
        (agentCreateQuickTunnel docker reg port outcome fcid flogs).2.2.lookup
            port = none) ∧
    (∀ (s : DriverState) (port : Nat) (service_id : Option String)
       (outcome : CreateOutcome) (fcid flogs e : String),
        (driverCreateQuickTunnel s port service_id outcome fcid flogs).1 =
          .error e →
        (driverCreateQuickTunnel s port service_id outcome
            fcid flogs).2.quick_tunnels.lookup port = none) ∧
    (∀ (s : DriverState) (port : Nat) (service_id : Option String)
       (fcid flogs e : String),
        (driverCreateQuickTunnel s port service_id .failClean fcid
            flogs).1 = .error e →
        ∀ c, c ∈ (driverCreateQuickTunnel s port service_id .failClean
            fcid flogs).2.docker → c ∈ s.docker) ∧
    (∀ (s : DriverState) (port : Nat) (service_id : Option String)
       (fcid flogs e : String),
        (driverCreateQuickTunnel s port service_id .failAfterCreate fcid
            flogs).1 = .error e →
        mkDriverQuickContainer port service_id fcid flogs "created" ∈
          (driverCreateQuickTunnel s port service_id .failAfterCreate fcid
            flogs).2.docker) := by
  refine ⟨?_, ?_, ?_, ?_⟩
  · intro docker reg port outcome fcid flogs e herr
    rcases agentCreateQuickTunnel_cases docker reg port outcome fcid flogs with
      ⟨url, heq⟩ | heq
    · rw [heq] at herr; simp at herr
    · rw [heq] at herr ⊢
      unfold agentCreateQuickBody at herr ⊢
      cases outcome with
      | ok => simp at herr
      | failClean =>
        exact ⟨removeContainer_find?_none docker _,
          lookup_alistErase reg port⟩
      | failAfterCreate =>
        exact ⟨removeContainer_find?_none _ _, lookup_alistErase reg port⟩
  · intro s port service_id outcome fcid flogs e herr
    rcases driverCreateQuickTunnel_cases s port service_id outcome fcid
      flogs with ⟨url, q, heq⟩ | heq
    · rw [heq] at herr; simp at herr
    · rw [heq] at herr ⊢
      exact driverCreateQuickBody_error s port service_id outcome fcid flogs
        e herr
  · intro s port service_id fcid flogs e herr
    rcases driverCreateQuickTunnel_cases s port service_id .failClean fcid
      flogs with ⟨url, q, heq⟩ | heq
    · rw [heq] at herr; simp at herr
    · rw [heq] at herr ⊢
      exact driverCreateQuickBody_failClean_mem s port service_id fcid flogs
  · intro s port service_id fcid flogs e herr
    rcases driverCreateQuickTunnel_cases s port service_id .failAfterCreate
      fcid flogs with ⟨url, q, heq⟩ | heq
    · rw [heq] at herr; simp at herr
    · rw [heq] at herr ⊢
      exact driverCreateQuickBody_failAfterCreate_orphan s port service_id
        fcid flogs

/-- Witness for the amended C2: on empty state, the service path rolls
back fully on a clean failure; the driver path on a clean failure clears
the registry and adds no container; on a partial failure it clears the
registry while the created container remains. -/
theorem c2_witness :
    ((agentCreateQuickTunnel [] [] 3000 .failClean "aaa" "").1 =
      .error "Error creando Quick Tunnel") ∧
    ((agentCreateQuickTunnel [] [] 3000 .failClean "aaa" "").2.1.find?
        (fun c => c.name == "cloudflared-quick-" ++ toString 3000) = none ∧
     (agentCreateQuickTunnel [] [] 3000 .failClean "aaa" "").2.2.lookup 3000 =
       none) ∧
    ((driverCreateQuickTunnel c3_s0 3000 (some "svc12345") .failClean
        "aaa" "").1 = .error "Error creando Quick Tunnel") ∧
    ((driverCreateQuickTunnel c3_s0 3000 (some "svc12345") .failClean
        "aaa" "").2.quick_tunnels.lookup 3000 = none) ∧
    (∀ c, c ∈ (driverCreateQuickTunnel c3_s0 3000 (some "svc12345")
        .failClean "aaa" "").2.docker → c ∈ c3_s0.docker) ∧
    (mkDriverQuickContainer 3000 (some "svc12345") "aaa" "" "created" ∈
      (driverCreateQuickTunnel c3_s0 3000 (some "svc12345") .failAfterCreate
        "aaa" "").2.docker) :=
  ⟨rfl,
   c2_create_failure_rollback.1 [] [] 3000 .failClean "aaa" ""
     "Error creando Quick Tunnel" rfl,
   rfl,
   (c2_create_failure_rollback.2.1 c3_s0 3000 (some "svc12345") .failClean
     "aaa" "" "Error creando Quick Tunnel" rfl),
   (c2_create_failure_rollback.2.2.1 c3_s0 3000 (some "svc12345")
     "aaa" "" "Error creando Quick Tunnel" rfl),
   (c2_create_failure_rollback.2.2.2 c3_s0 3000 (some "svc12345")
     "aaa" "" "Error creando Quick Tunnel" rfl)⟩

theorem selectStop_none_fallback (st : List DContainer) (port : Nat)
    (osid : Option String)
    (h : selectStopContainer st port osid = none) :
    (runningContainers st).find? (fun d => matchesPortProvider d port) =
      none := by
  cases osid with
  | none => simpa [selectStopContainer] using h
  | some sid =>
    cases hsid : (sid == "") with
    | true => simpa [selectStopContainer, hsid] using h
    | false =>
      cases hfind : (runningContainers st).find?
          (fun d => matchesServiceId d sid) with
      | some d => simp [selectStopContainer, hsid, hfind] at h
      | none => simpa [selectStopContainer, hsid, hfind] using h

theorem selectStop_none_sid (st : List DContainer) (port : Nat) (sid : String)
    (hne : (sid == "") = false)
    (h : selectStopContainer st port (some sid) = none) :
    (runningContainers st).find? (fun d => matchesServiceId d sid) = none := by
  cases hfind : (runningContainers st).find?
      (fun d => matchesServiceId d sid) with
  | some d => simp [selectStopContainer, hne, hfind] at h
  | none => rfl

theorem selectStop_eq_none (st : List DContainer) (port : Nat)
    (osid : Option String)
    (hpp : (runningContainers st).find? (fun d => matchesPortProvider d port) =
      none)
    (hsid : ∀ x, osid = some x → (x == "") = false →
      (runningContainers st).find? (fun d => matchesServiceId d x) = none) :
    selectStopContainer st port osid = none := by
  cases osid with
  | none => simp [selectStopContainer, hpp]
  | some x =>
    cases hx : (x == "") with
    | true => simp [selectStopContainer, hx, hpp]
    | false => simp [selectStopContainer, hx, hsid x rfl hx, hpp]

/-- C6: `stop_tunnel` selects by the service-id label whenever a (truthy)
service id is supplied and some running managed container carries it; when
no container matches the service id it falls back to the
(port, provider) label pair; and every fallback selection carries the
`tunnel-provider=cloudflare` label together with the port label — a
container is never chosen by the port label alone. -/
theorem c6_stop_selection :
    (∀ (st : List DContainer) (port : Nat) (sid : String) (c : DContainer),
        sid ≠ "" →
        (runningContainers st).any (fun d => matchesServiceId d sid) = true →
        selectStopContainer st port (some sid) = some c →
        matchesServiceId c sid = true) ∧
    (∀ (st : List DContainer) (port : Nat) (sid : String),
        (runningContainers st).find? (fun d => matchesServiceId d sid) =
          none →
        selectStopContainer st port (some sid) =
          (runningContainers st).find? (fun d => matchesPortProvider d port)) ∧
    (∀ (st : List DContainer) (port : Nat) (osid : Option String)
       (c : DContainer),
        selectStopContainer st port osid = some c →
        (∃ x, osid = some x ∧ matchesServiceId c x = true) ∨
        matchesPortProvider c port = true) := by
  refine ⟨?_, ?_, ?_⟩
  · intro st port sid c hne hany hsel
    have hsid : (sid == "") = false := by simp [hne]
    rw [List.any_eq_true] at hany
    obtain ⟨d, hdmem, hd⟩ := hany
    cases hfind : (runningContainers st).find?
        (fun d => matchesServiceId d sid) with
    | none => exact absurd hd (List.find?_eq_none.mp hfind d hdmem)
    | some d' =>
      have hsel' : selectStopContainer st port (some sid) = some d' := by
        simp [selectStopContainer, hsid, hfind]
      rw [hsel'] at hsel
      have hp := List.find?_some hfind
      cases hsel
      exact hp
  · intro st port sid hfind
    cases hsid : (sid == "") with
    | true => simp [selectStopContainer, hsid]
    | false => simp [selectStopContainer, hsid, hfind]
  · intro st port osid c hsel
    cases osid with
    | none =>
      simp only [selectStopContainer] at hsel
      have hp := List.find?_some hsel
      exact Or.inr hp
    | some sid =>
      cases hsid : (sid == "") with
      | true =>
        simp only [selectStopContainer, hsid] at hsel
        have hsel' : (runningContainers st).find?
            (fun d => matchesPortProvider d port) = some c := by
          simpa using hsel
        have hp := List.find?_some hsel'
        exact Or.inr hp
      | false =>
        cases hfind : (runningContainers st).find?
            (fun d => matchesServiceId d sid) with
        | some d =>
          have hsel' : selectStopContainer st port (some sid) = some d := by
            simp [selectStopContainer, hsid, hfind]
          rw [hsel'] at hsel
          have hp := List.find?_some hfind
          cases hsel
          exact Or.inl ⟨sid, rfl, hp⟩
        | none =>
          have hsel' : selectStopContainer st port (some sid) =
              (runningContainers st).find?
                (fun d => matchesPortProvider d port) := by
            simp [selectStopContainer, hsid, hfind]
          rw [hsel'] at hsel
          have hp := List.find?_some hsel
          exact Or.inr hp

/-- Witness for C6: in a state with one running labelled container,
selection picks it by service id; with no service-id match the fallback is
taken; and the selected container carries the provider label. -/
theorem c6_witness :
    matchesServiceId c7_container "svc12345" = true ∧
    (selectStopContainer [c7_container] 3000 (some "other") =
      [c7_container].find? (fun d => matchesPortProvider d 3000)) ∧
    ((∃ x, (some "svc12345" : Option String) = some x ∧
        matchesServiceId c7_container x = true) ∨
     matchesPortProvider c7_container 3000 = true) := by
  refine ⟨?_, ?_, ?_⟩
  · exact c6_stop_selection.1 [c7_container] 3000 "svc12345" c7_container
      (by decide) (by decide) (by decide)
  · have h := c6_stop_selection.2.1 [c7_container] 3000 "other" (by decide)
    simpa [runningContainers, c7_container] using h
  · exact c6_stop_selection.2.2 [c7_container] 3000 (some "svc12345")
      c7_container (by decide)

/-- C7: `stop_tunnel` on an already-stopped service returns `False`
without raising, changes nothing, and indeed no running container for the
service exists; a successful stop of the unique matching container leaves
the service already-stopped (so the second call is that no-op); and
deleting an absent ingress rule is a no-op success. -/
theorem c7_stop_idempotent :
    (∀ (s : DriverState) (port : Nat) (service_id : Option String),
        noStopTarget s port service_id →
        stopTunnel s port service_id = (false, s) ∧
        ∀ d ∈ s.docker, d.status = "running" →
          matchesPortProvider d port = false ∧
          ∀ x, service_id = some x → x ≠ "" →
            matchesServiceId d x = false) ∧
    (∀ (s : DriverState) (port : Nat) (service_id : Option String)
       (c : DContainer),
        selectStopContainer s.docker port service_id = some c →
        (∀ d ∈ s.docker, d.status = "running" →
            (matchesPortProvider d port = true ∨
             ∃ x, service_id = some x ∧ matchesServiceId d x = true) →
            d.cid = c.cid) →
        (stopTunnel s port service_id).1 = true ∧
        noStopTarget (stopTunnel s port service_id).2 port service_id) ∧
    (∀ (rules : List (String × IngressRule)) (hostname protocol : String)
       (updateOk : Bool),
        rules.lookup (hostname ++ "_" ++ protocol) = none →
        deleteNamedTunnelRoute rules hostname protocol updateOk =
          (true, rules)) := by
  refine ⟨?_, ?_, ?_⟩
  · intro s port service_id hno
    obtain ⟨hsel, hat⟩ := hno
    constructor
    · simp [stopTunnel, hsel, hat]
    · intro d hd hrun
      have hdrun : d ∈ runningContainers s.docker :=
        List.mem_filter.mpr ⟨hd, by simp [hrun]⟩
      constructor
      · have hpp := selectStop_none_fallback s.docker port service_id hsel
        have := List.find?_eq_none.mp hpp d hdrun
        cases hb : matchesPortProvider d port with
        | false => rfl
        | true => exact absurd hb this
      · intro x hx hxne
        subst hx
        have hxne' : (x == "") = false := by simp [hxne]
        have hsidn := selectStop_none_sid s.docker port x hxne' hsel
        have := List.find?_eq_none.mp hsidn d hdrun
        cases hb : matchesServiceId d x with
        | false => rfl
        | true => exact absurd hb this
  · intro s port service_id c hsel huniq
    have hstop : stopTunnel s port service_id =
        (true,
         { s with docker := s.docker.filter (fun d => !(d.cid == c.cid)),
                  quick_tunnels := alistErase s.quick_tunnels port,
                  active_tunnels := alistErase s.active_tunnels port }) := by
      simp [stopTunnel, hsel]
    rw [hstop]
    refine ⟨rfl, ?_, ?_⟩
    · refine selectStop_eq_none _ port service_id ?_ ?_
      · refine List.find?_eq_none.mpr ?_
        intro d hd hmatch
        have hd1 := List.mem_filter.mp hd
        have hd2 := List.mem_filter.mp hd1.1
        have hrun : d.status = "running" := by
          have := hd1.2
          simpa using this
        have := huniq d hd2.1 hrun (Or.inl hmatch)
        have hne : (d.cid == c.cid) = false := by
          simpa using hd2.2
        rw [this] at hne
        simp at hne
      · intro x hx hxne
        refine List.find?_eq_none.mpr ?_
        intro d hd hmatch
        have hd1 := List.mem_filter.mp hd
        have hd2 := List.mem_filter.mp hd1.1
        have hrun : d.status = "running" := by
          have := hd1.2
          simpa using this
        have := huniq d hd2.1 hrun (Or.inr ⟨x, hx, hmatch⟩)
        have hne : (d.cid == c.cid) = false := by
          simpa using hd2.2
        rw [this] at hne
        simp at hne
    · exact lookup_alistErase s.active_tunnels port
  · intro rules hostname protocol updateOk h
    simp [deleteNamedTunnelRoute, h]

/-- Witness for C7: stopping on empty state is a `False` no-op; stopping
the one matching container succeeds and leaves the service
already-stopped; removing a rule from an empty table succeeds. -/
theorem c7_witness :
    (stopTunnel c3_s0 3000 (some "svc12345") = (false, c3_s0) ∧
     ∀ d ∈ c3_s0.docker, d.status = "running" →
       matchesPortProvider d 3000 = false ∧
       ∀ x, (some "svc12345" : Option String) = some x → x ≠ "" →
         matchesServiceId d x = false) ∧
    ((stopTunnel c7_state 3000 (some "svc12345")).1 = true ∧
     noStopTarget (stopTunnel c7_state 3000 (some "svc12345")).2 3000
       (some "svc12345")) ∧
    deleteNamedTunnelRoute [] "api.example.com" "http" true = (true, []) := by
  refine ⟨?_, ?_, ?_⟩
  · exact c7_stop_idempotent.1 c3_s0 3000 (some "svc12345") ⟨rfl, rfl⟩
  · refine c7_stop_idempotent.2.1 c7_state 3000 (some "svc12345")
      c7_container rfl ?_
    intro d hd _ _
    have : d = c7_container := by simpa [c7_state] using hd
    rw [this]
  · exact c7_stop_idempotent.2.2 [] "api.example.com" "http" true rfl

theorem isActuallyRunning_set_status (quick : List Nat)
    (named : List (String × Nat)) (s : SyncService) (x : String) :
    isActuallyRunning quick named { s with status := x } =
      isActuallyRunning quick named s := rfl

theorem syncOne_running_absent (quick : List Nat)
    (named : List (String × Nat)) (s : SyncService)
    (hst : s.status = "running")
    (hrun : isActuallyRunning quick named s = false) :
    syncOne quick named s =
      ({ s with status := "stopped" }, some ⟨s.sid, s.status, "stopped"⟩) := by
  simp [syncOne, hrun, hst]

theorem syncOne_stopped_present (quick : List Nat)
    (named : List (String × Nat)) (s : SyncService)
    (hst : s.status ≠ "running")
    (hrun : isActuallyRunning quick named s = true) :
    syncOne quick named s =
      ({ s with status := "running" }, some ⟨s.sid, s.status, "running"⟩) := by
  simp [syncOne, hrun, bne_iff_ne, hst]

theorem syncOne_consistent (quick : List Nat)
    (named : List (String × Nat)) (s : SyncService)
    (hiff : s.status = "running" ↔ isActuallyRunning quick named s = true) :
    syncOne quick named s = (s, none) := by
  cases hrun : isActuallyRunning quick named s with
  | true =>
    have hst : s.status = "running" := hiff.mpr hrun
    simp [syncOne, hrun, hst]
  | false =>
    have hst : s.status ≠ "running" := fun h => by
      rw [hiff.mp h] at hrun; exact Bool.true_eq_false.mp hrun
    simp [syncOne, hrun, beq_eq_false_iff_ne, hst]

theorem syncOne_fixed (quick : List Nat) (named : List (String × Nat))
    (s : SyncService) :
    syncOne quick named (syncOne quick named s).1 =
      ((syncOne quick named s).1, none) := by
  cases hrun : isActuallyRunning quick named s with
  | true =>
    by_cases hst : s.status = "running"
    · rw [syncOne_consistent quick named s (by simp [hrun, hst])]
      exact syncOne_consistent quick named s (by simp [hrun, hst])
    · rw [syncOne_stopped_present quick named s hst hrun]
      refine syncOne_consistent quick named _ ?_
      rw [isActuallyRunning_set_status quick named s "running", hrun]
      simp
  | false =>
    by_cases hst : s.status = "running"
    · rw [syncOne_running_absent quick named s hst hrun]
      refine syncOne_consistent quick named _ ?_
      rw [isActuallyRunning_set_status quick named s "stopped", hrun]
      simp
    · rw [syncOne_consistent quick named s (by simp [hrun, hst])]
      exact syncOne_consistent quick named s (by simp [hrun, hst])

theorem driverCreate_fresh (s0 : DriverState) (cfg : TunnelConfig)
    (fcid flogs url : String)
    (h1 : s0.docker.find?
      (fun c => c.name == driverQuickName cfg.port cfg.service_id) = none)
    (h2 : extractQuickUrl flogs = some url) :
    driverCreateTunnelQuick s0 cfg .ok fcid flogs =
      (.ok { tunnel_id := "quick-" ++ toString cfg.port,
             public_url := url,
             local_target := "localhost:" ++ toString cfg.port,
             port := cfg.port, provider := "cloudflare",
             protocol := cfg.protocol,
             process_id := some (strTake fcid 12) },
       { docker := s0.docker ++
           [mkDriverQuickContainer cfg.port cfg.service_id fcid flogs
             "running"],
         quick_tunnels := alistSet s0.quick_tunnels cfg.port ⟨url, fcid⟩,
         active_tunnels := alistSet
           (alistSet s0.active_tunnels cfg.port ⟨none⟩) cfg.port ⟨none⟩,
         managed_rules := s0.managed_rules }) := by
  have einner : driverCreateQuickTunnel s0 cfg.port cfg.service_id .ok
      fcid flogs =
      (.ok url,
       { docker := s0.docker ++
           [mkDriverQuickContainer cfg.port cfg.service_id fcid flogs
             "running"],
         quick_tunnels := alistSet s0.quick_tunnels cfg.port ⟨url, fcid⟩,
         active_tunnels := alistSet s0.active_tunnels cfg.port ⟨none⟩,
         managed_rules := s0.managed_rules }) := by
    simp only [driverCreateQuickTunnel, h1, driverCreateQuickBody, if_true,
      h2, mkDriverQuickContainer]
  unfold driverCreateTunnelQuick
  rw [einner]
  simp [lookup_alistSet]

/-- C3 as stated is false: when the assigned URL never appears in the first
container's logs (extraction times out and the fallback URL is used), the
immediately repeated `create_tunnel` call does not reuse the running
container — it removes it and creates a second, different container for
the same port, returning that new container's id. -/
theorem c3_counterexample :
    c3_r1.1.map (fun i => i.process_id) = .ok (some "aaa") ∧
    c3_r2.1.map (fun i => i.process_id) = .ok (some "bbb") ∧
    c3_r1.2.docker.map (fun c => c.cid) = ["aaa"] ∧
    c3_r2.2.docker.map (fun c => c.cid) = ["bbb"] := by
  exact ⟨rfl, rfl, rfl, rfl⟩

/-- C3 (amended): calling `create_tunnel` twice in immediate succession
with the same (port, provider, mode) configuration returns the same
tunnel's info the second time — same public URL and same container — and
does not create a second container, provided the public URL can be
extracted from the created container's logs (the normal case; the
counterexample covers extraction failure). -/
theorem c3_create_idempotent_when_url_extracted :
    ∀ (s0 : DriverState) (cfg : TunnelConfig)
      (fcid flogs fcid2 flogs2 url : String),
      s0.docker.find?
        (fun c => c.name == driverQuickName cfg.port cfg.service_id) =
        none →
      extractQuickUrl flogs = some url →
      (driverCreateTunnelQuick s0 cfg .ok fcid flogs).1.map
          (fun i => i.public_url) = .ok url ∧
      (driverCreateTunnelQuick (driverCreateTunnelQuick s0 cfg .ok fcid
          flogs).2 cfg .ok fcid2 flogs2).1.map (fun i => i.public_url) =
        .ok url ∧
      (driverCreateTunnelQuick (driverCreateTunnelQuick s0 cfg .ok fcid
          flogs).2 cfg .ok fcid2 flogs2).1.map (fun i => i.process_id) =
        (driverCreateTunnelQuick s0 cfg .ok fcid flogs).1.map
          (fun i => i.process_id) ∧
      (driverCreateTunnelQuick (driverCreateTunnelQuick s0 cfg .ok fcid
          flogs).2 cfg .ok fcid2 flogs2).2.docker =
        (driverCreateTunnelQuick s0 cfg .ok fcid flogs).2.docker := by
  intro s0 cfg fcid flogs fcid2 flogs2 url h1 h2
  rw [driverCreate_fresh s0 cfg fcid flogs url h1 h2]
  have hfind2 : (s0.docker ++
      [mkDriverQuickContainer cfg.port cfg.service_id fcid flogs
        "running"]).find?
      (fun c => c.name == driverQuickName cfg.port cfg.service_id) =
      some (mkDriverQuickContainer cfg.port cfg.service_id fcid flogs
        "running") := by
    rw [find?_append_of_left_none _ _ _ h1]
    simp [List.find?, mkDriverQuickContainer]
  have einner2 : driverCreateQuickTunnel
      ({ docker := s0.docker ++
           [mkDriverQuickContainer cfg.port cfg.service_id fcid flogs
             "running"],
         quick_tunnels := alistSet s0.quick_tunnels cfg.port ⟨url, fcid⟩,
         active_tunnels := alistSet
           (alistSet s0.active_tunnels cfg.port ⟨none⟩) cfg.port ⟨none⟩,
         managed_rules := s0.managed_rules } : DriverState)
      cfg.port cfg.service_id .ok fcid2 flogs2 =
      (.ok url,
       { docker := s0.docker ++
           [mkDriverQuickContainer cfg.port cfg.service_id fcid flogs
             "running"],
         quick_tunnels := alistSet
           (alistSet s0.quick_tunnels cfg.port ⟨url, fcid⟩) cfg.port
           ⟨url, fcid⟩,
         active_tunnels := alistSet
           (alistSet s0.active_tunnels cfg.port ⟨none⟩) cfg.port ⟨none⟩,
         managed_rules := s0.managed_rules }) := by
    unfold driverCreateQuickTunnel
    dsimp only
    rw [hfind2]
    simp [mkDriverQuickContainer, h2]
  unfold driverCreateTunnelQuick
  rw [einner2]
  simp [lookup_alistSet, Except.map]

/-- Witness for the amended C3: on empty state, with logs that do contain
the assigned URL, the second call returns the same URL and container id
and leaves the daemon unchanged. -/
theorem c3_witness :
    (driverCreateTunnelQuick c3_s0 c3_cfg .ok "aaa" c3_goodLogs).1.map
        (fun i => i.public_url) = .ok "https://abc.trycloudflare.com" ∧
    (driverCreateTunnelQuick (driverCreateTunnelQuick c3_s0 c3_cfg .ok
        "aaa" c3_goodLogs).2 c3_cfg .ok "bbb" "").1.map
        (fun i => i.public_url) = .ok "https://abc.trycloudflare.com" ∧
    (driverCreateTunnelQuick (driverCreateTunnelQuick c3_s0 c3_cfg .ok
        "aaa" c3_goodLogs).2 c3_cfg .ok "bbb" "").1.map
        (fun i => i.process_id) =
      (driverCreateTunnelQuick c3_s0 c3_cfg .ok "aaa" c3_goodLogs).1.map
        (fun i => i.process_id) ∧
    (driverCreateTunnelQuick (driverCreateTunnelQuick c3_s0 c3_cfg .ok
        "aaa" c3_goodLogs).2 c3_cfg .ok "bbb" "").2.docker =
      (driverCreateTunnelQuick c3_s0 c3_cfg .ok "aaa" c3_goodLogs).2.docker :=
  c3_create_idempotent_when_url_extracted c3_s0 c3_cfg "aaa" c3_goodLogs
    "bbb" "" "https://abc.trycloudflare.com" rfl rfl

/-- C4: one reconciliation pass applies exactly the declared/observed
transition table.  In `sync_service_states`: a service declared running
with no observed tunnel is marked stopped; a service not declared running
with an observed tunnel is marked running; every consistent combination
is left untouched with no correction recorded.  In the container-driven
pass, a container matched to a service marks it running and backfills the
public URL extracted from the container's logs whenever extraction
succeeds. -/
theorem c4_reconciliation_transition_rules :
    (∀ (quick : List Nat) (named : List (String × Nat)) (s : SyncService),
        (s.status = "running" → isActuallyRunning quick named s = false →
          syncOne quick named s =
            ({ s with status := "stopped" },
             some ⟨s.sid, s.status, "stopped"⟩)) ∧
        (s.status ≠ "running" → isActuallyRunning quick named s = true →
          syncOne quick named s =
            ({ s with status := "running" },
             some ⟨s.sid, s.status, "running"⟩)) ∧
        ((s.status = "running" ↔ isActuallyRunning quick named s = true) →
          syncOne quick named s = (s, none))) ∧
    (∀ (c : DContainer) (services : List SyncService) (s : SyncService),
        reconcile_container c services = .updated s →
        s.status = "running" ∧
        ∀ u, extract_url_by_provider s.provider_key c.logs = some u →
          s.public_url = some u) := by
  constructor
  · intro quick named s
    exact ⟨syncOne_running_absent quick named s,
      syncOne_stopped_present quick named s,
      syncOne_consistent quick named s⟩
  · intro c services s hupd
    simp only [reconcile_container] at hupd
    cases hport : truthyOpt (orGet (c.labels.lookup "tunnel-port")
        (c.labels.lookup "port")) with
    | none =>
      simp only [hport] at hupd
      exact ReconOutcome.noConfusion hupd
    | some pstr =>
      simp only [hport] at hupd
      cases hnat : pstr.toNat? with
      | none =>
        simp only [hnat] at hupd
        exact ReconOutcome.noConfusion hupd
      | some port =>
        simp only [hnat] at hupd
        cases hfind : services.find? (fun s0 => s0.port == port &&
            (match truthyOpt (orGet (c.labels.lookup "tunnel-provider")
                (c.labels.lookup "provider")) with
             | some pr => lowerStr s0.provider_key == lowerStr pr
             | none => true)) with
        | none =>
          simp only [hfind] at hupd
          exact ReconOutcome.noConfusion hupd
        | some s0 =>
          simp only [hfind, ReconOutcome.updated.injEq] at hupd
          subst hupd
          refine ⟨rfl, ?_⟩
          intro u hu
          have hu' : extract_url_by_provider s0.provider_key c.logs =
              some u := hu
          simp [hu']

/-- Witness for C4: a quick service on port 3000 declared running with no
container is marked stopped; the same service declared stopped with an
observed container is marked running; and the container pass backfills the
URL from the logs. -/
theorem c4_witness :
    (syncOne [] [] c4_svcRunning =
      (c4_svcStopped, some ⟨"s1", "running", "stopped"⟩)) ∧
    (syncOne [3000] [] c4_svcStopped =
      (c4_svcRunning, some ⟨"s1", "stopped", "running"⟩)) ∧
    (∀ s, reconcile_container c4_container [c4_svcStopped] = .updated s →
      s.status = "running" ∧
      ∀ u, extract_url_by_provider s.provider_key c4_container.logs =
          some u →
        s.public_url = some u) := by
  refine ⟨?_, ?_, ?_⟩
  · have h := (c4_reconciliation_transition_rules.1 [] [] c4_svcRunning).1
      rfl rfl
    simpa [c4_svcRunning, c4_svcStopped] using h
  · have h := (c4_reconciliation_transition_rules.1 [3000] []
      c4_svcStopped).2.1 (by decide) (by decide)
    simpa [c4_svcRunning, c4_svcStopped] using h
  · intro s hupd
    exact c4_reconciliation_transition_rules.2 c4_container [c4_svcStopped]
      s hupd

/-- C5: reconciliation is level-triggered: a second `sync_service_states`
pass against unchanged observed infrastructure records zero corrections
and rewrites no status. -/
theorem c5_reconciliation_idempotent :
    ∀ (docker : List DContainer) (rules : List (String × IngressRule))
      (services : List SyncService),
      (sync_service_states docker rules
        (sync_service_states docker rules services).1).2 = [] ∧
      (sync_service_states docker rules
        (sync_service_states docker rules services).1).1 =
        (sync_service_states docker rules services).1 := by
  intro docker rules services
  constructor
  · simp only [sync_service_states, List.map_map, List.filterMap_map]
    refine List.filterMap_eq_nil_iff.mpr ?_
    intro s hs
    simp only [Function.comp]
    rw [syncOne_fixed]
  · simp only [sync_service_states, List.map_map]
    refine List.map_congr_left ?_
    intro s hs
    simp only [Function.comp]
    rw [syncOne_fixed]

/-- C8: once the last recorded activity of a host lies a full TTL (15 s)
or more in the past, `is_agent_connected` reports `false`, regardless of
the transport handle still sitting in the connection map. -/
theorem c8_liveness_ttl_expiry :
    ∀ (m : AgentManager) (now : Rat) (server_id : String) (last : Rat),
      m.last_activity.lookup server_id = some last →
      agent_ttl_seconds ≤ now - last →
      m.is_agent_connected now server_id = false := by
  intro m now server_id last hlook hle
  unfold AgentManager.is_agent_connected
  rw [hlook]
  have hnl : ¬ (now - last < agent_ttl_seconds) := not_lt.mpr hle
  cases hc : m.agents.contains server_id with
  | false => simp [hc]
  | true => simp [hc, decide_eq_false_iff_not, hnl]

/-- Witness for C8: a host whose socket is still registered but whose last
activity is exactly one TTL old is reported disconnected. -/
theorem c8_witness :
    (AgentManager.mk ["host-a"] [("host-a", 0)]).is_agent_connected 15 "host-a"
      = false :=
  c8_liveness_ttl_expiry (AgentManager.mk ["host-a"] [("host-a", 0)]) 15
    "host-a" 0 rfl (by simp [agent_ttl_seconds])

/-- C9 as stated is false: the duplicate check of `CreateServiceUseCase`
filters on (user_id, port, host) — not on the provider, and scoped to the
requesting user.  A second user creating a service with the same host,
port and provider as user 1's existing row succeeds, leaving two rows that
claim the (localhost, 3000, cloudflare) triple. -/
theorem c9_counterexample :
    c9_result.1 = .ok c9_created ∧
    c9_result.2.countP (fun s => s.host == "localhost" && s.port == 3000 &&
      s.provider_key == "cloudflare") = 2 :=
  ⟨rfl, rfl⟩

/-- C9 (amended): service uniqueness is enforced per
(user, host, port) — creating a second service with the same user, host
and port as an existing row (whatever the providers) is rejected with an
error and the table is unchanged; the (host, port, provider) triple is not
unique across users. -/
theorem c9_create_rejects_same_user_host_port :
    ∀ (providers : List ProviderRec) (db : List ServiceRow)
      (req : ServiceCreateRequest) (user_id fresh_id : Nat) (s : ServiceRow),
      s ∈ db → s.user_id = user_id → s.host = req.host → s.port = req.port →
      (∃ e, (createService providers db req user_id fresh_id).1 = .error e) ∧
      (createService providers db req user_id fresh_id).2 = db := by
  intro providers db req user_id fresh_id s hmem huser hhost hport
  unfold createService
  cases hp : providers.find? (fun p => p.key == req.provider_key &&
      p.is_active) with
  | none => exact ⟨⟨_, rfl⟩, rfl⟩
  | some p =>
    cases hdup : db.find? (fun s0 => s0.user_id == user_id &&
        s0.port == req.port && s0.host == req.host) with
    | some s0 => exact ⟨⟨_, rfl⟩, rfl⟩
    | none =>
      have hpred : (fun s0 : ServiceRow => s0.user_id == user_id &&
          s0.port == req.port && s0.host == req.host) s = true := by
        simp [huser, hhost, hport]
      exact absurd hpred (List.find?_eq_none.mp hdup s hmem)

/-- Witness for the amended C9: user 1 re-creating a service on
localhost:3000 is rejected and the table keeps only the original row. -/
theorem c9_witness :
    (∃ e, (createService c9_providers [c9_existing] c9_req 1 8).1 =
      .error e) ∧
    (createService c9_providers [c9_existing] c9_req 1 8).2 =
      [c9_existing] :=
  c9_create_rejects_same_user_host_port c9_providers [c9_existing] c9_req 1 8
    c9_existing (List.mem_singleton.mpr rfl) rfl rfl rfl

/-- C10: `TunnelService.resolve` returns the Cloudflare driver for every
protocol — it never reaches the unsupported-combination error for that
provider — even though `is_supported` reports Cloudflare + UDP as
unsupported. -/
theorem c10_cloudflare_resolve_ignores_protocol :
    (∀ protocol : TunnelProtocol,
        TunnelService.resolve .cloudflare protocol =
          .ok .cloudflaredHTTPDriver) ∧
    TunnelService.is_supported .cloudflare .udp = false :=
  ⟨fun _ => rfl, rfl⟩

end LocalRun
